import Mathlib

/-!
Shallow embedding of the rdtp reliability core (packages `atc` and
`service/ports/socket`) and proofs of the specification's claims about it.

Go errors are modelled as `Option String` (`none` = nil error, `some msg`
= a non-nil error carrying `msg`).  The in-flight map `map[uint32]*packet.Packet`
is modelled as a function `Nat → Option Packet` (Go map lookup returning the
zero value / presence bit).  Machine `uint32` arithmetic on the byte counters
is modelled as `Nat` addition reduced modulo `2 ^ 32`.
-/

/-- A wire packet, after `packet.Packet` of the rdtp repository.
Header fields: ports, payload length, checksum, sequence and acknowledgement
numbers, the four control flags, and the payload bytes.  The codec itself is
not part of the verified sources; only the fields the socket and the
controller read are modelled. -/
structure Packet where
  srcPort : Nat
  dstPort : Nat
  length : Nat
  checksum : Nat
  seqNo : Nat
  ackNo : Nat
  syn : Bool
  ack : Bool
  fin : Bool
  err : Bool
  payload : List Nat
  deriving DecidableEq, Repr

/-- State of the retransmission controller, after `atc.AirTrafficCtrl`:
the ack-wait duration (nanoseconds) and the in-flight map from sequence
number to the packet last sent under it.  The transmit callback `fwFunc`
is passed explicitly to the operations that use it. -/
structure AirTrafficCtrl where
  ackWait : Nat
  inFlight : Nat → Option Packet

/-- `defaultAckWaitTime = time.Second * 1` in nanoseconds. -/
def defaultAckWaitTime : Nat := 1000000000

/-- `atc.NewAirTrafficCtrl`: default ack wait, empty in-flight map. -/
def NewAirTrafficCtrl : AirTrafficCtrl :=
  { ackWait := defaultAckWaitTime, inFlight := fun _ => none }

/-- `AirTrafficCtrl.Send`: registers the packet under its sequence number in
the in-flight map, then invokes the transmit callback; when the callback
fails the wrapped error is returned.  The source performs no rollback of the
registration on callback failure.  Returns (error, new state). -/
def AirTrafficCtrl.Send (atc : AirTrafficCtrl) (fwFunc : Packet → Option String)
    (pck : Packet) : Option String × AirTrafficCtrl :=
  let atc' : AirTrafficCtrl :=
    { atc with inFlight := fun k => if k = pck.seqNo then some pck else atc.inFlight k }
  match fwFunc pck with
  | some e => (some ("could not send packet: " ++ e), atc')
  | none => (none, atc')

/-- `AirTrafficCtrl.Ack`: deletes the entry for `num` from the in-flight map.
The Go method returns nothing, so it can never fail: its model is a total
function into `AirTrafficCtrl`. -/
def AirTrafficCtrl.Ack (atc : AirTrafficCtrl) (num : Nat) : AirTrafficCtrl :=
  { atc with inFlight := fun k => if k = num then none else atc.inFlight k }

/-- A concrete packet used to evaluate the controller at specific inputs. -/
def packetSeq5 : Packet :=
  { srcPort := 10, dstPort := 20, length := 3, checksum := 0, seqNo := 5,
    ackNo := 0, syn := false, ack := false, fin := false, err := false,
    payload := [1, 2, 3] }

/-- A transmit callback that always fails. -/
def failingFwFunc : Packet → Option String := fun _ => some "no route to host"

/-- A transmit callback that always succeeds. -/
def okFwFunc : Packet → Option String := fun _ => none

/-- Modelled from the spec: the retransmission-timing state of §4.3 is
absent from `src/atc/atc.go` (the source stores `ackWait` but never arms a
timer).  A controller together with its per-sequence-number one-shot timers;
an armed timer records the wait duration it was armed with. -/
structure ATCTimers where
  ctrl : AirTrafficCtrl
  timer : Nat → Option Nat

/-- Modelled from the spec: each successful `Send` arms a one-shot timer for
the configured ack-wait duration scoped to that sequence number; a failed
`Send` arms nothing.  The underlying map update is the source's
`AirTrafficCtrl.Send`. -/
def ATCTimers.send (s : ATCTimers) (fwFunc : Packet → Option String)
    (pck : Packet) : Option String × ATCTimers :=
  match s.ctrl.Send fwFunc pck with
  | (none, c) =>
    (none, { ctrl := c,
             timer := fun k => if k = pck.seqNo then some s.ctrl.ackWait else s.timer k })
  | (some e, c) => (some e, { s with ctrl := c })

/-- Modelled from the spec: a timer fire for sequence number `n`.  If the
in-flight entry is still present the controller resends that same packet
unchanged via the transmit callback and rearms the timer; if the entry has
been removed, nothing is retransmitted and the spent one-shot timer is gone.
The first component is the packet handed to the transmit callback, if any. -/
def ATCTimers.timerFire (s : ATCTimers) (n : Nat) : Option Packet × ATCTimers :=
  match s.ctrl.inFlight n with
  | some p =>
    (some p, { s with timer := fun k => if k = n then some s.ctrl.ackWait else s.timer k })
  | none => (none, { s with timer := fun k => if k = n then none else s.timer k })

/-- Modelled from the spec: `Ack` removes the in-flight entry (the source's
`AirTrafficCtrl.Ack`) and cancels the pending timer for that sequence
number. -/
def ATCTimers.ack (s : ATCTimers) (num : Nat) : ATCTimers :=
  { ctrl := s.ctrl.Ack num,
    timer := fun k => if k = num then none else s.timer k }

/-- A fresh timed controller. -/
def newATCTimers : ATCTimers :=
  { ctrl := NewAirTrafficCtrl, timer := fun _ => none }

/-- State of the v2 socket (`NewSocket`-era) that its pumps touch: the byte
counters (`uint32`), the owned retransmission controller, and the list of
payloads written to the application-facing stream so far. -/
structure SocketV2 where
  txBytes : Nat
  rxBytes : Nat
  atc : AirTrafficCtrl
  appWritten : List (List Nat)

/-- One iteration of v2 `Socket.receiver` on a packet `p` taken from the
socket's `In` channel: invokes the controller's `Ack` with `p.AckNo`, adds
`uint32(p.Length)` to the receive byte counter (machine addition modulo
`2 ^ 32`), and writes `p.Payload` to the application-facing stream. -/
def SocketV2.receiverStep (s : SocketV2) (p : Packet) : SocketV2 :=
  { s with
    atc := s.atc.Ack p.ackNo,
    rxBytes := (s.rxBytes + p.length) % 2 ^ 32,
    appWritten := s.appWritten ++ [p.payload] }

/-- The packet-factory sink configured inside v2 `NewSocket`: it calls
`atctrl.Send(p)` discarding the value that call returns, and then returns a
nil error unconditionally.  First component: the error the sink reports to
the factory; second: the controller state after the embedded `Send`. -/
def newSocketSink (atc : AirTrafficCtrl) (fwFunc : Packet → Option String)
    (p : Packet) : Option String × AirTrafficCtrl :=
  (none, (atc.Send fwFunc p).2)

/-- Counter-relevant state of the v1 socket: the two `uint32` byte counters
and the payloads written to the application-facing stream. -/
structure SocketV1 where
  txBytes : Nat
  rxBytes : Nat
  appWritten : List (List Nat)

/-- One data iteration of v1 `Socket.receive` on a packet `p` from the
inbound queue: adds `uint32(p.Length)` to the receive byte counter (machine
addition modulo `2 ^ 32`) and writes `p.Payload` to the application-facing
stream.  The transmit counter is not touched. -/
def SocketV1.receiveStep (s : SocketV1) (p : Packet) : SocketV1 :=
  { s with
    rxBytes := (s.rxBytes + p.length) % 2 ^ 32,
    appWritten := s.appWritten ++ [p.payload] }

/-- One successful iteration of v1 `Socket.transmit` in which the
application-stream read produced a chunk and `PackAndForwardMessage`
reported `n` bytes consumed: adds `uint32(n)` to the transmit byte counter.
The receive counter is not touched. -/
def SocketV1.transmitStep (s : SocketV1) (n : Nat) : SocketV1 :=
  { s with txBytes := (s.txBytes + n) % 2 ^ 32 }

/-- A packet with header length 2, used to exhibit `uint32` wraparound. -/
def packetLen2 : Packet :=
  { srcPort := 0, dstPort := 0, length := 2, checksum := 0, seqNo := 0,
    ackNo := 0, syn := false, ack := false, fin := false, err := false,
    payload := [7, 8] }

/-- Go fmt `%t` of a boolean. -/
def boolStr (b : Bool) : String := if b then "true" else "false"

/-- The flag-mismatch error message built by `Socket.WaitForControlPacket`
for the flag named `flagName`. -/
def mismatchMsg (flagName : String) (expected got : Bool) : String :=
  "expected a packet with " ++ flagName ++ "[" ++ boolStr expected ++
    "] but got one with " ++ flagName ++ "[" ++ boolStr got ++ "]"

/-- v1 `Socket.WaitForControlPacket`.  The select race between the inbound
channel and the timeout is modelled by its outcome: `some p` when a packet
arrives first, `none` when the timeout fires first.  Returns `none` on
success, `some msg` with the source's error message otherwise.  Flags are
compared in source order SYN, ACK, FIN, ERR, returning on the first
mismatch. -/
def WaitForControlPacket (syn ack fin err : Bool) (arrival : Option Packet) :
    Option String :=
  match arrival with
  | some p =>
    if syn ≠ p.syn then some (mismatchMsg "SYN" syn p.syn)
    else if ack ≠ p.ack then some (mismatchMsg "ACK" ack p.ack)
    else if fin ≠ p.fin then some (mismatchMsg "FIN" fin p.fin)
    else if err ≠ p.err then some (mismatchMsg "ERR" err p.err)
    else none
  | none => some "operation timed out"

/-- An rdtp address: host string and port. -/
structure Addr where
  host : String
  port : Nat
  deriving DecidableEq, Repr

/-- The part of v1 `Config` that `New`'s validation reads.  The application
and network connections are modelled only by whether they are nil. -/
structure Config where
  localAddr : Option Addr
  remoteAddr : Option Addr
  applicationNil : Bool
  networkNil : Bool

/-- The validation performed by the v1 socket constructor `New`, with
`net.ParseIP` modelled by the predicate `validHost` (`true` exactly when the
host string parses as an IP).  Mirrors the source faithfully, including the
short-circuit order and the remote-address branch, which re-checks
`c.LocalAddr.Host` rather than `c.RemoteAddr.Host`.  `none` means the
constructor returns a socket; `some msg` means it returns the error. -/
def New (validHost : String → Bool) (c : Config) : Option String :=
  match c.localAddr with
  | none => some "invalid local address"
  | some l =>
    if !(validHost l.host) then some "invalid local address"
    else
      match c.remoteAddr with
      | none => some "remote address cannot be nil"
      | some _ =>
        if !(validHost l.host) then some "remote address cannot be nil"
        else if c.applicationNil then
          some "connection to application layer cannot be nil"
        else if c.networkNil then
          some "connection to network layer cannot be nil"
        else none

/-- A host validator accepting exactly the string "1.2.3.4". -/
def demoValidHost : String → Bool := fun h => h == "1.2.3.4"

/-- A configuration whose remote address has an unparseable host while every
other field is valid. -/
def badRemoteConfig : Config :=
  { localAddr := some { host := "1.2.3.4", port := 10 },
    remoteAddr := some { host := "not-an-ip", port := 20 },
    applicationNil := false, networkNil := false }

/-- Outcomes by which a v1 `Socket.Close` call can fail to complete:
the Go runtime panic from sending on a closed channel, or blocking forever
on a full un-closed channel. -/
inductive CloseFault where
  | panicSendOnClosedChan
  | wouldBlock
  deriving DecidableEq, Repr

/-- The externally visible effects of v1 `Socket.Close`, in order. -/
inductive CloseEvent where
  | shutdownSignalSent
  | shutdownChanClosed
  | applicationStreamClosed
  deriving DecidableEq, Repr

/-- The state v1 `Socket.Close` touches: the capacity-1 buffered shutdown
channel (`make(chan bool, 1)`) — its closed flag and buffered contents — and
whether the application-facing stream has been closed. -/
structure CloseState where
  shutdownClosed : Bool
  shutdownBuf : List Bool
  applicationClosed : Bool
  deriving DecidableEq, Repr

/-- The close-relevant state of a socket freshly built by `New`. -/
def newCloseState : CloseState :=
  { shutdownClosed := false, shutdownBuf := [], applicationClosed := false }

/-- v1 `Socket.Close`: sends `true` on the shutdown channel, closes the
shutdown channel, then closes the application-facing stream.  Sending on a
closed channel is a Go runtime panic; sending on a full un-closed capacity-1
channel blocks.  On completion, returns the ordered event trace and the new
state. -/
def Socket.Close (s : CloseState) :
    Except CloseFault (List CloseEvent × CloseState) :=
  if s.shutdownClosed then .error .panicSendOnClosedChan
  else if 1 ≤ s.shutdownBuf.length then .error .wouldBlock
  else
    .ok ([.shutdownSignalSent, .shutdownChanClosed, .applicationStreamClosed],
      { shutdownClosed := true, shutdownBuf := s.shutdownBuf ++ [true],
        applicationClosed := true })

/-- The close-relevant state left by a completed first `Socket.Close` call
on a fresh socket. -/
def closedOnceState : CloseState :=
  { shutdownClosed := true, shutdownBuf := [true], applicationClosed := true }

/-- A concrete fresh v2 socket state. -/
def demoSocketV2 : SocketV2 :=
  { txBytes := 0, rxBytes := 0, atc := NewAirTrafficCtrl, appWritten := [] }

/-- A concrete fresh v1 socket state. -/
def demoSocketV1 : SocketV1 :=
  { txBytes := 0, rxBytes := 0, appWritten := [] }

/-- C1: in `AirTrafficCtrl.Send`, when the transmit callback fails the wrapped
send error is returned, but the in-flight registration made at the start of
`Send` persists: at the concrete failing input the map still holds the entry
for sequence number 5, contradicting the claimed rollback.  Evaluates the
code at the failing input. -/
theorem send_callback_failure_keeps_entry :
    (NewAirTrafficCtrl.Send failingFwFunc packetSeq5).1 =
      some "could not send packet: no route to host" ∧
    (NewAirTrafficCtrl.Send failingFwFunc packetSeq5).2.inFlight 5 =
      some packetSeq5 := by
  exact ⟨rfl, rfl⟩

/-- C3: `Send` of a packet followed by `Ack` of its sequence number leaves the
in-flight map with no entry for that number; and `Ack n` on a state whose map
has no entry for `n` leaves every entry of the map exactly as it was.  `Ack`
is a total function into `AirTrafficCtrl` (no error component), so it never
fails. -/
theorem send_then_ack_removes_entry (atc : AirTrafficCtrl)
    (fwFunc : Packet → Option String) (p : Packet) (t : AirTrafficCtrl) (n : Nat)
    (h : t.inFlight n = none) :
    ((atc.Send fwFunc p).2.Ack p.seqNo).inFlight p.seqNo = none ∧
    ∀ k, (t.Ack n).inFlight k = t.inFlight k := by
  constructor
  · simp [AirTrafficCtrl.Ack]
  · intro k
    simp only [AirTrafficCtrl.Ack]
    split
    · next hk => rw [hk, h]
    · rfl

/-- Witness for C3 at concrete inputs: the empty controller has no entry for
7, sending the seq-5 packet then acking 5 leaves no entry for 5, and acking 7
on the empty controller changes nothing. -/
theorem send_then_ack_removes_entry_witness :
    NewAirTrafficCtrl.inFlight 7 = none ∧
    (((NewAirTrafficCtrl.Send failingFwFunc packetSeq5).2.Ack
        packetSeq5.seqNo).inFlight packetSeq5.seqNo = none ∧
      ∀ k, (NewAirTrafficCtrl.Ack 7).inFlight k = NewAirTrafficCtrl.inFlight k) :=
  ⟨rfl, send_then_ack_removes_entry NewAirTrafficCtrl failingFwFunc packetSeq5
    NewAirTrafficCtrl 7 rfl⟩

/-- C9: frame effect of the controller operations.  For `m ≠ n`, `Ack n`
leaves the entry for `m` exactly as it was, and `Send` of a packet whose
sequence number is `n` leaves the entry for `m` exactly as it was, whatever
the transmit callback returns. -/
theorem controller_ops_frame_other_entries (atc : AirTrafficCtrl)
    (fwFunc : Packet → Option String) (p : Packet) (n m : Nat)
    (hmn : m ≠ n) (hp : p.seqNo = n) :
    (atc.Ack n).inFlight m = atc.inFlight m ∧
    (atc.Send fwFunc p).2.inFlight m = atc.inFlight m := by
  have hmp : m ≠ p.seqNo := by rw [hp]; exact hmn
  refine ⟨?_, ?_⟩
  · simp [AirTrafficCtrl.Ack, hmn]
  · cases hfw : fwFunc p <;> simp [AirTrafficCtrl.Send, hfw, hmp]

/-- Witness for C9 at concrete inputs: acking 5 and sending the seq-5 packet
both leave the entry for 9 unchanged. -/
theorem controller_ops_frame_other_entries_witness :
    (NewAirTrafficCtrl.Ack 5).inFlight 9 = NewAirTrafficCtrl.inFlight 9 ∧
    (NewAirTrafficCtrl.Send failingFwFunc packetSeq5).2.inFlight 9 =
      NewAirTrafficCtrl.inFlight 9 :=
  controller_ops_frame_other_entries NewAirTrafficCtrl failingFwFunc packetSeq5
    5 9 (by decide) rfl

/-- C2 (the timing model is modelled from the spec; the source's controller
stores `ackWait` but arms no timers): a successful `Send` arms a one-shot
timer of the configured ack-wait duration scoped to the packet's sequence
number; a timer fire for a sequence number whose in-flight entry is still
present hands that same packet, unchanged, to the transmit callback and
rearms the timer; a fire for a sequence number whose entry has been removed
retransmits nothing. -/
theorem timed_send_arms_and_fire_retransmits (s : ATCTimers)
    (fwFunc : Packet → Option String) (pck p : Packet) (n : Nat)
    (hok : fwFunc pck = none) :
    ((s.send fwFunc pck).2.timer pck.seqNo = some s.ctrl.ackWait) ∧
    (s.ctrl.inFlight n = some p →
      (s.timerFire n).1 = some p ∧
      (s.timerFire n).2.timer n = some s.ctrl.ackWait) ∧
    (s.ctrl.inFlight n = none → (s.timerFire n).1 = none) := by
  refine ⟨?_, ?_, ?_⟩
  · simp [ATCTimers.send, AirTrafficCtrl.Send, hok]
  · intro h
    constructor
    · simp [ATCTimers.timerFire, h]
    · simp [ATCTimers.timerFire, h]
  · intro h
    simp [ATCTimers.timerFire, h]

/-- Witness for C2, replaying scenario B: sending the seq-5 packet with a
succeeding callback arms the timer for 5 with the default ack-wait; a timer
fire while the entry is present retransmits exactly that packet; after
`ack 5` a simulated timer fire for 5 retransmits nothing. -/
theorem timed_send_arms_and_fire_retransmits_witness :
    okFwFunc packetSeq5 = none ∧
    ((newATCTimers.send okFwFunc packetSeq5).2.timer packetSeq5.seqNo =
      some newATCTimers.ctrl.ackWait) ∧
    ((newATCTimers.send okFwFunc packetSeq5).2.ctrl.inFlight 5 =
      some packetSeq5) ∧
    (((newATCTimers.send okFwFunc packetSeq5).2.timerFire 5).1 =
      some packetSeq5) ∧
    ((((newATCTimers.send okFwFunc packetSeq5).2.ack 5).timerFire 5).1 =
      none) :=
  ⟨rfl,
    (timed_send_arms_and_fire_retransmits newATCTimers okFwFunc packetSeq5
      packetSeq5 5 rfl).1,
    rfl,
    ((timed_send_arms_and_fire_retransmits
        (newATCTimers.send okFwFunc packetSeq5).2 okFwFunc packetSeq5
        packetSeq5 5 rfl).2.1 rfl).1,
    (timed_send_arms_and_fire_retransmits
        ((newATCTimers.send okFwFunc packetSeq5).2.ack 5) okFwFunc packetSeq5
        packetSeq5 5 rfl).2.2 rfl⟩

/-- C4: one step of the v2 receive pump on a packet whose header length
field equals its payload length (the factory invariant of the spec): the
controller is acked with the packet's carried acknowledgement number, the
receive byte counter is incremented (machine addition modulo `2 ^ 32`) by
exactly the payload length, and the payload is written to the
application-facing stream. -/
theorem receiver_step_acks_counts_and_writes (s : SocketV2) (p : Packet)
    (hlen : p.length = p.payload.length) :
    (s.receiverStep p).atc = s.atc.Ack p.ackNo ∧
    (s.receiverStep p).rxBytes = (s.rxBytes + p.payload.length) % 2 ^ 32 ∧
    (s.receiverStep p).appWritten = s.appWritten ++ [p.payload] := by
  refine ⟨rfl, ?_, rfl⟩
  simp [SocketV2.receiverStep, hlen]

/-- Witness for C4 at the concrete fresh socket and the seq-5 packet
(length 3, payload of 3 bytes). -/
theorem receiver_step_acks_counts_and_writes_witness :
    packetSeq5.length = packetSeq5.payload.length ∧
    ((demoSocketV2.receiverStep packetSeq5).atc =
        demoSocketV2.atc.Ack packetSeq5.ackNo ∧
      (demoSocketV2.receiverStep packetSeq5).rxBytes =
        (demoSocketV2.rxBytes + packetSeq5.payload.length) % 2 ^ 32 ∧
      (demoSocketV2.receiverStep packetSeq5).appWritten =
        demoSocketV2.appWritten ++ [packetSeq5.payload]) :=
  ⟨rfl, receiver_step_acks_counts_and_writes demoSocketV2 packetSeq5 rfl⟩

/-- C5: the first hop of the claimed propagation holds — `Send` does return
the wrapped error to its caller, the factory sink — but the sink configured
in v2 `NewSocket` discards that error and reports a nil error to the packet
factory, so the failure never reaches the transmit pump's error path.
Evaluates the code at the failing input. -/
theorem factory_sink_discards_send_error :
    (NewAirTrafficCtrl.Send failingFwFunc packetSeq5).1.isSome = true ∧
    (newSocketSink NewAirTrafficCtrl failingFwFunc packetSeq5).1 = none :=
  ⟨rfl, rfl⟩

/-- C6: `WaitForControlPacket` succeeds iff the first packet's four flags
exactly equal the requested combination; on a first packet with differing
flags it returns the flag-mismatch error naming a flag that differs; when
the timeout fires first it returns the timeout error. -/
theorem waitForControlPacket_spec (syn ack fin err : Bool)
    (arrival : Option Packet) :
    (WaitForControlPacket syn ack fin err arrival = none ↔
      ∃ p, arrival = some p ∧ syn = p.syn ∧ ack = p.ack ∧ fin = p.fin ∧
        err = p.err) ∧
    (∀ p, arrival = some p →
      ¬(syn = p.syn ∧ ack = p.ack ∧ fin = p.fin ∧ err = p.err) →
      (syn ≠ p.syn ∧ WaitForControlPacket syn ack fin err arrival =
          some (mismatchMsg "SYN" syn p.syn)) ∨
      (ack ≠ p.ack ∧ WaitForControlPacket syn ack fin err arrival =
          some (mismatchMsg "ACK" ack p.ack)) ∨
      (fin ≠ p.fin ∧ WaitForControlPacket syn ack fin err arrival =
          some (mismatchMsg "FIN" fin p.fin)) ∨
      (err ≠ p.err ∧ WaitForControlPacket syn ack fin err arrival =
          some (mismatchMsg "ERR" err p.err))) ∧
    (arrival = none →
      WaitForControlPacket syn ack fin err arrival =
        some "operation timed out") := by
  cases arrival with
  | none =>
    refine ⟨by simp [WaitForControlPacket], ?_, fun _ => rfl⟩
    intro p hp
    exact absurd hp (by simp)
  | some q =>
    refine ⟨?_, ?_, by simp⟩
    · by_cases h1 : syn = q.syn <;> by_cases h2 : ack = q.ack <;>
        by_cases h3 : fin = q.fin <;> by_cases h4 : err = q.err <;>
        simp [WaitForControlPacket, h1, h2, h3, h4]
    · intro p hp hne
      obtain rfl : q = p := by injection hp
      by_cases h1 : syn = q.syn
      · by_cases h2 : ack = q.ack
        · by_cases h3 : fin = q.fin
          · by_cases h4 : err = q.err
            · exact absurd ⟨h1, h2, h3, h4⟩ hne
            · exact Or.inr (Or.inr (Or.inr
                ⟨h4, by simp [WaitForControlPacket, h1, h2, h3, h4]⟩))
          · exact Or.inr (Or.inr (Or.inl
              ⟨h3, by simp [WaitForControlPacket, h1, h2, h3]⟩))
        · exact Or.inr (Or.inl ⟨h2, by simp [WaitForControlPacket, h1, h2]⟩)
      · exact Or.inl ⟨h1, by simp [WaitForControlPacket, h1]⟩

/-- Witness for C6 at a concrete input: with no packet arriving before the
timeout, the call reports the timeout error. -/
theorem waitForControlPacket_spec_witness :
    WaitForControlPacket true false false false none =
      some "operation timed out" :=
  (waitForControlPacket_spec true false false false none).2.2 rfl

/-- C7: evaluating `New` at a configuration whose remote address host does
not parse (while the local address is valid and the application and network
connections are non-nil) shows construction succeeding — the source's
remote-address branch re-checks the local host — contradicting the claim
that such a construction always fails. -/
theorem new_accepts_unparseable_remote_host :
    demoValidHost "not-an-ip" = false ∧
    New demoValidHost badRemoteConfig = none := by
  exact ⟨rfl, rfl⟩

/-- C8 counterexample: at a state whose receive counter is `2 ^ 32 - 1`, one
receive-pump step on a length-2 packet wraps the `uint32` counter around to
1, strictly decreasing it — so the byte counters are not monotonically
non-decreasing across every step of their owning pumps, as claimed. -/
theorem receive_counter_wraparound_decreases :
    ((SocketV1.mk 0 (2 ^ 32 - 1) []).receiveStep packetLen2).rxBytes <
      (SocketV1.mk 0 (2 ^ 32 - 1) []).rxBytes := by
  decide

/-- C8 amended: each pump step modifies only its own counter — the receive
step never touches the transmit counter and vice versa — and the
modification is machine (modulo `2 ^ 32`) addition of the processed packet's
or chunk's byte length; whenever that addition does not overflow, the
counter is non-decreasing across the step. -/
theorem pump_counter_ownership (s : SocketV1) (p : Packet) (n : Nat)
    (hrx : s.rxBytes + p.length < 2 ^ 32) (htx : s.txBytes + n < 2 ^ 32) :
    (s.receiveStep p).txBytes = s.txBytes ∧
    (s.receiveStep p).rxBytes = (s.rxBytes + p.length) % 2 ^ 32 ∧
    (s.transmitStep n).rxBytes = s.rxBytes ∧
    (s.transmitStep n).txBytes = (s.txBytes + n) % 2 ^ 32 ∧
    s.rxBytes ≤ (s.receiveStep p).rxBytes ∧
    s.txBytes ≤ (s.transmitStep n).txBytes := by
  refine ⟨rfl, rfl, rfl, rfl, ?_, ?_⟩
  · show s.rxBytes ≤ (s.rxBytes + p.length) % 2 ^ 32
    rw [Nat.mod_eq_of_lt hrx]
    exact Nat.le_add_right _ _
  · show s.txBytes ≤ (s.txBytes + n) % 2 ^ 32
    rw [Nat.mod_eq_of_lt htx]
    exact Nat.le_add_right _ _

/-- Witness for the amended C8 at the fresh socket, the length-2 packet and
a 4-byte chunk. -/
theorem pump_counter_ownership_witness :
    (demoSocketV1.rxBytes + packetLen2.length < 2 ^ 32) ∧
    (demoSocketV1.txBytes + 4 < 2 ^ 32) ∧
    ((demoSocketV1.receiveStep packetLen2).txBytes = demoSocketV1.txBytes ∧
      (demoSocketV1.receiveStep packetLen2).rxBytes =
        (demoSocketV1.rxBytes + packetLen2.length) % 2 ^ 32 ∧
      (demoSocketV1.transmitStep 4).rxBytes = demoSocketV1.rxBytes ∧
      (demoSocketV1.transmitStep 4).txBytes =
        (demoSocketV1.txBytes + 4) % 2 ^ 32 ∧
      demoSocketV1.rxBytes ≤ (demoSocketV1.receiveStep packetLen2).rxBytes ∧
      demoSocketV1.txBytes ≤ (demoSocketV1.transmitStep 4).txBytes) :=
  ⟨by decide, by decide,
    pump_counter_ownership demoSocketV1 packetLen2 4 (by decide) (by decide)⟩

/-- C10: `Socket.Close` is not idempotent.  From any state with the
shutdown channel open and empty — as on a fresh socket — the first call
completes, emitting in order the shutdown-signal send, the shutdown-channel
close and the application-stream close; but calling `Close` again on the
resulting state faults with the send-on-closed-channel panic instead of
being a no-op. -/
theorem close_not_idempotent (s : CloseState) (h1 : s.shutdownClosed = false)
    (h2 : s.shutdownBuf = []) :
    Socket.Close s = Except.ok
      ([CloseEvent.shutdownSignalSent, CloseEvent.shutdownChanClosed,
        CloseEvent.applicationStreamClosed], closedOnceState) ∧
    Socket.Close closedOnceState =
      Except.error CloseFault.panicSendOnClosedChan := by
  refine ⟨?_, rfl⟩
  simp [Socket.Close, h1, h2, closedOnceState]

/-- Witness for C10 at the fresh socket's close-relevant state. -/
theorem close_not_idempotent_witness :
    newCloseState.shutdownClosed = false ∧ newCloseState.shutdownBuf = [] ∧
    (Socket.Close newCloseState = Except.ok
      ([CloseEvent.shutdownSignalSent, CloseEvent.shutdownChanClosed,
        CloseEvent.applicationStreamClosed], closedOnceState) ∧
      Socket.Close closedOnceState =
        Except.error CloseFault.panicSendOnClosedChan) :=
  ⟨rfl, rfl, close_not_idempotent newCloseState rfl rfl⟩
